import Mathlib

/-!
Verification development for the MomMode clinic-appointment system.

The frontend definitions below are translated from
src/frontend/src/lib/api.ts, which bundles two HTTP client layers: a
fetch-based client (apiRequest, storeSessionTokens, buildUrl and the
storage helpers) and an axios-based client (disconnectCalendar and its
siblings). Strings are modelled as Lean strings, and URL character
manipulation as lists of characters. The browser environment that
apiRequest interacts with (the stored token and the outcome of the single
fetch call it makes) is passed in explicitly, and the number of fetch
invocations the function performs is returned alongside its result so
that retry behaviour is visible in the model.

The backend scheduling engine (booking, lifecycle transitions, the
reminder scheduler and the date/time resolver) is not part of the
repository snapshot, so those definitions are modelled from the
specification text, as marked in their doc comments.
-/

namespace MomMode

/-- Mirror of ERROR_MESSAGES.MISSING_TOKEN in api.ts. -/
def MISSING_TOKEN_MESSAGE : String := "Missing access token. Add a session token in Settings."

/-- Mirror of ERROR_MESSAGES.NETWORK in api.ts. -/
def NETWORK_MESSAGE : String := "Network request failed."

/-- Mirror of ERROR_MESSAGES.TIMEOUT in api.ts. -/
def TIMEOUT_MESSAGE : String := "Request timed out."

/-- Mirror of ERROR_MESSAGES.INVALID_RESPONSE in api.ts. -/
def INVALID_RESPONSE_MESSAGE : String := "Unexpected response from API."

/-- Mirror of STORAGE_KEYS.ACCESS_TOKEN in api.ts. -/
def ACCESS_TOKEN_KEY : String := "callpilot.access_token"

/-- Mirror of STORAGE_KEYS.REFRESH_TOKEN in api.ts. -/
def REFRESH_TOKEN_KEY : String := "callpilot.refresh_token"

/-- Mirror of STORAGE_KEYS.EXPIRES_AT in api.ts. -/
def EXPIRES_AT_KEY : String := "callpilot.expires_at"

/-- Mirror of STORAGE_KEYS.TOKEN_TYPE in api.ts. -/
def TOKEN_TYPE_KEY : String := "callpilot.token_type"

/-- Mirror of STORAGE_KEYS.USER_ID in api.ts. -/
def USER_ID_KEY : String := "callpilot.user_id"

/-- Mirror of TOKEN_EXPIRY_FALLBACK_SECONDS in api.ts. -/
def TOKEN_EXPIRY_FALLBACK_SECONDS : Nat := 1800

/-- Mirror of MILLISECONDS_PER_SECOND in api.ts. -/
def MILLISECONDS_PER_SECOND : Nat := 1000

/-- Mirror of API_PATHS.CALENDAR_DISCONNECT in api.ts (fetch-based client). -/
def CALENDAR_DISCONNECT_PATH : String := "/api/calendar/disconnect"

/-- The body apiRequest extracts from a fetch Response: either a string
(a text body, or a JSON value whose typeof is string) or any other JSON
value, kept opaque. -/
inductive ResponseBody
  | str (s : String)
  | jsonValue (reprText : String)
deriving DecidableEq, Repr

/-- The outcome of the single fetch call in apiRequest: a settled HTTP
response (with its ok flag, status and extracted body), an AbortError
DOMException raised when the 15 second timeout fires, or any other
exception (network failure, or a body that fails to parse as JSON). -/
inductive FetchOutcome
  | response (status : Nat) (ok : Bool) (body : ResponseBody)
  | abortError
  | thrown
deriving DecidableEq, Repr

/-- Mirror of the ApiResult type in api.ts. -/
structure ApiResult where
  data : Option ResponseBody
  error : Option String
  status : Option Nat
deriving DecidableEq, Repr

/-- JavaScript truthiness of the value getAccessToken reads from
localStorage: null (key absent) and the empty string are falsy. -/
def tokenFalsy : Option String → Bool
  | none => true
  | some s => s.isEmpty

/-- Translation of apiRequest in api.ts. Its interaction with the
environment is explicit: storedToken is what getAccessToken returns and
outcome is what the one fetch call it may perform settles to. The second
component of the result counts how many times fetch was invoked; the
source contains a single fetch call with no loop around it, so the count
is 0 (early return on a missing token) or 1. Every exception raised
inside the try block is caught: an AbortError maps to the timeout
message and anything else to the network message, so the function never
throws. -/
def apiRequest (requiresAuth : Bool) (storedToken : Option String)
    (outcome : FetchOutcome) : ApiResult × Nat :=
  if requiresAuth && tokenFalsy storedToken then
    ({ data := none, error := some MISSING_TOKEN_MESSAGE, status := none }, 0)
  else
    match outcome with
    | .response status ok body =>
      if ok then
        ({ data := some body, error := none, status := some status }, 1)
      else
        ({ data := none,
           error := some (match body with
             | .str s => s
             | .jsonValue _ => INVALID_RESPONSE_MESSAGE),
           status := some status }, 1)
    | .abortError =>
      ({ data := none, error := some TIMEOUT_MESSAGE, status := none }, 1)
    | .thrown =>
      ({ data := none, error := some NETWORK_MESSAGE, status := none }, 1)

/-- The success condition of an apiRequest call, following the spec: the
call succeeded exactly when it reached the network (no missing token)
and the response settled with ok true. -/
def requestSucceeded (requiresAuth : Bool) (storedToken : Option String)
    (outcome : FetchOutcome) : Bool :=
  !(requiresAuth && tokenFalsy storedToken) &&
    (match outcome with
     | .response _ ok _ => ok
     | _ => false)

/-- Mirror of the TokenResponse type in api.ts. The optional user_id
field is an Option; the refresh_token and token_type fields arrive as
strings whose JavaScript falsiness is emptiness. -/
structure TokenResponse where
  access_token : String
  refresh_token : String
  token_type : String
  expires_in : Nat
  user_id : Option String
deriving DecidableEq, Repr

/-- JavaScript truthiness of the optional user_id field: absent and the
empty string are falsy. -/
def userIdTruthy : Option String → Bool
  | none => false
  | some s => !s.isEmpty

/-- Translation of storeSessionTokens in api.ts, with Date.now() passed
in as nowMs. The function returns the ordered list of localStorage
writes it performs (key-value pairs), which is empty when the guard on a
falsy access_token takes the early return. -/
def storeSessionTokens (tr : TokenResponse) (nowMs : Nat) : List (String × String) :=
  if tr.access_token.isEmpty then []
  else
    let expiresInSeconds := if tr.expires_in = 0 then TOKEN_EXPIRY_FALLBACK_SECONDS else tr.expires_in
    let expiresAt := nowMs + expiresInSeconds * MILLISECONDS_PER_SECOND
    [(ACCESS_TOKEN_KEY, tr.access_token),
     (REFRESH_TOKEN_KEY, if tr.refresh_token.isEmpty then "" else tr.refresh_token),
     (TOKEN_TYPE_KEY, if tr.token_type.isEmpty then "Bearer" else tr.token_type),
     (EXPIRES_AT_KEY, toString expiresAt)]
    ++ (if userIdTruthy tr.user_id then [(USER_ID_KEY, tr.user_id.getD "")] else [])

/-- Translation of sanitizeBaseUrl in api.ts over character lists: the
regex replace of a trailing run of slashes with the empty string. -/
def sanitizeBaseUrl (s : List Char) : List Char :=
  (s.reverse.dropWhile (fun c => c == '/')).reverse

/-- The regex replace of a leading run of slashes with the empty string,
as applied to the path inside buildUrl in api.ts. -/
def stripLeadingSlashes (s : List Char) : List Char :=
  s.dropWhile (fun c => c == '/')

/-- Translation of buildUrl in api.ts, parametrised by the raw base URL
before sanitisation (API_BASE_URL is sanitizeBaseUrl applied to the
environment value or the localhost default): the template literal joins
the sanitised base, one slash, and the path with leading slashes
removed. -/
def buildUrl (rawBase path : List Char) : List Char :=
  sanitizeBaseUrl rawBase ++ '/' :: stripLeadingSlashes path

/-- An HTTP request issued through the axios instance in the second
client layer bundled in api.ts: its method and url. -/
structure AxiosRequest where
  method : String
  url : String
deriving DecidableEq, Repr

/-- Translation of disconnectCalendar in the axios client layer of
api.ts: api.post on the calendar-disconnect path. -/
def disconnectCalendar : AxiosRequest :=
  { method := "POST", url := "/calendar/disconnect" }

/-- Translation of getCalendarStatus in the axios client layer of
api.ts. -/
def getCalendarStatus : AxiosRequest :=
  { method := "GET", url := "/calendar/status" }

/-- Translation of deleteAppointment in the axios client layer of
api.ts. -/
def deleteAppointment (id : String) : AxiosRequest :=
  { method := "DELETE", url := "/appointments/" ++ id }

/-! Frontend client theorems. -/

/-- Helper: the head of dropWhile never satisfies the dropped predicate. -/
theorem head_dropWhile_not (p : Char → Bool) :
    ∀ (l : List Char) (c : Char), (l.dropWhile p).head? = some c → p c = false := by
  intro l
  induction l with
  | nil =>
    intro c h
    simp [List.dropWhile] at h
  | cons a t ih =>
    intro c h
    by_cases hp : p a
    · rw [List.dropWhile_cons_of_pos hp] at h
      exact ih c h
    · rw [List.dropWhile_cons_of_neg hp] at h
      simp only [List.head?_cons, Option.some.injEq] at h
      subst h
      simpa using hp

/-- Claim C4 (counterexample): on a 401 response, apiRequest performs
exactly one fetch attempt and surfaces the raw response body as the
error; it performs no token refresh and no retry, and it never produces
an AuthExpired error. -/
theorem apiRequest_401_no_refresh_counterexample :
    (apiRequest true (some "session-token") (.response 401 false (.str "Unauthorized"))).2 = 1 ∧
    (apiRequest true (some "session-token") (.response 401 false (.str "Unauthorized"))).1 =
      { data := none, error := some "Unauthorized", status := some 401 } := by
  constructor <;> rfl

/-- Claim C4 (amended): for every authenticated call that fails with a
401 response, apiRequest performs no token refresh and no retry: it
returns the response body (or the generic invalid-response message) as
the error with status 401 after exactly one fetch attempt. -/
theorem apiRequest_401_single_attempt (tok : String) (body : ResponseBody)
    (h : tok.isEmpty = false) :
    apiRequest true (some tok) (.response 401 false body) =
      ({ data := none,
         error := some (match body with
           | .str s => s
           | .jsonValue _ => INVALID_RESPONSE_MESSAGE),
         status := some 401 }, 1) := by
  simp [apiRequest, tokenFalsy, h]

/-- Claim C4 witness: the amended statement at a concrete token and
body. -/
theorem apiRequest_401_single_attempt_witness :
    apiRequest true (some "tok") (.response 401 false (.str "token expired")) =
      ({ data := none, error := some "token expired", status := some 401 }, 1) :=
  apiRequest_401_single_attempt "tok" (.str "token expired") (by decide)

/-- Claim C5 (counterexample): a 500 response and a timeout are each
surfaced after exactly one fetch attempt, with the failure returned
directly; there is no second attempt and no backoff. -/
theorem apiRequest_transient_counterexample :
    (apiRequest false none (.response 500 false (.str "Internal Server Error"))).2 = 1 ∧
    (apiRequest false none (.response 500 false (.str "Internal Server Error"))).1 =
      { data := none, error := some "Internal Server Error", status := some 500 } ∧
    apiRequest false none .abortError =
      ({ data := none, error := some TIMEOUT_MESSAGE, status := none }, 1) := by
  refine ⟨rfl, rfl, rfl⟩

/-- Claim C5 (amended): apiRequest performs at most one fetch attempt in
every case, and a transient failure (5xx response, timeout, network
failure) is surfaced as a typed error immediately after that single
attempt, with no retry and no backoff. -/
theorem apiRequest_single_attempt (requiresAuth : Bool) (storedToken : Option String)
    (outcome : FetchOutcome) (st : Nat) (body : ResponseBody) :
    (apiRequest requiresAuth storedToken outcome).2 ≤ 1 ∧
    apiRequest false storedToken (.response st false body) =
      ({ data := none,
         error := some (match body with
           | .str s => s
           | .jsonValue _ => INVALID_RESPONSE_MESSAGE),
         status := some st }, 1) ∧
    apiRequest false storedToken .abortError =
      ({ data := none, error := some TIMEOUT_MESSAGE, status := none }, 1) ∧
    apiRequest false storedToken .thrown =
      ({ data := none, error := some NETWORK_MESSAGE, status := none }, 1) := by
  refine ⟨?_, by simp [apiRequest], by simp [apiRequest], by simp [apiRequest]⟩
  unfold apiRequest
  split
  · simp
  · cases outcome with
    | response st ok body => dsimp only; split <;> simp
    | abortError => simp
    | thrown => simp

/-- Claim C6: apiRequest is total over failure outcomes: the error field
is populated exactly when the call did not succeed (missing token,
non-ok response, timeout, or any thrown failure), and data and error are
never both populated. -/
theorem apiRequest_error_iff_failed (requiresAuth : Bool) (storedToken : Option String)
    (outcome : FetchOutcome) :
    ((apiRequest requiresAuth storedToken outcome).1.error = none ↔
      requestSucceeded requiresAuth storedToken outcome = true) ∧
    ¬((apiRequest requiresAuth storedToken outcome).1.data ≠ none ∧
      (apiRequest requiresAuth storedToken outcome).1.error ≠ none) := by
  by_cases hauth : (requiresAuth && tokenFalsy storedToken) = true
  · simp [apiRequest, requestSucceeded, hauth]
  · cases outcome with
    | response st ok body =>
      by_cases hok : ok = true
      · simp [apiRequest, requestSucceeded, hauth, hok]
      · simp [apiRequest, requestSucceeded, hauth, Bool.eq_false_iff.mpr hok]
    | abortError => simp [apiRequest, requestSucceeded, hauth]
    | thrown => simp [apiRequest, requestSucceeded, hauth]

/-- Claim C7 (counterexample): the axios operation that disconnects the
calendar issues a POST, not a DELETE. -/
theorem disconnectCalendar_not_delete_counterexample :
    (disconnectCalendar.method == "DELETE") = false ∧
    disconnectCalendar.method = "POST" := by
  constructor <;> rfl

/-- Claim C7 (amended): the client operation that disconnects the
calendar issues an HTTP POST request to the calendar-disconnect
endpoint. -/
theorem disconnectCalendar_issues_post :
    disconnectCalendar = { method := "POST", url := "/calendar/disconnect" } := rfl

/-- Claim C8: with requiresAuth set and a missing (or empty) stored
token, apiRequest returns the missing-token result with null status and
performs no fetch call at all. -/
theorem apiRequest_missing_token (storedToken : Option String) (outcome : FetchOutcome)
    (h : tokenFalsy storedToken = true) :
    apiRequest true storedToken outcome =
      ({ data := none, error := some MISSING_TOKEN_MESSAGE, status := none }, 0) := by
  simp [apiRequest, h]

/-- Claim C8 witness: the missing-token behaviour with no stored token,
for each fetch outcome shape being irrelevant. -/
theorem apiRequest_missing_token_witness :
    apiRequest true none .thrown =
      ({ data := none, error := some MISSING_TOKEN_MESSAGE, status := none }, 0) :=
  apiRequest_missing_token none .thrown rfl

/-- Claim C9: storeSessionTokens writes nothing when the access token is
missing or empty; otherwise it writes exactly the access-token,
refresh-token (defaulting to the empty string), token-type (defaulting
to Bearer) and expires-at keys, with expires-at equal to now plus the
expiry seconds (1800 when expires_in is falsy) in milliseconds, plus the
user-id key exactly when user_id is present and non-empty. -/
theorem storeSessionTokens_guarded (tr : TokenResponse) (nowMs : Nat) :
    (tr.access_token.isEmpty = true → storeSessionTokens tr nowMs = []) ∧
    (tr.access_token.isEmpty = false →
      (storeSessionTokens tr nowMs).map Prod.fst =
        [ACCESS_TOKEN_KEY, REFRESH_TOKEN_KEY, TOKEN_TYPE_KEY, EXPIRES_AT_KEY] ++
          (if userIdTruthy tr.user_id then [USER_ID_KEY] else []) ∧
      (storeSessionTokens tr nowMs).lookup ACCESS_TOKEN_KEY = some tr.access_token ∧
      (storeSessionTokens tr nowMs).lookup REFRESH_TOKEN_KEY =
        some (if tr.refresh_token.isEmpty then "" else tr.refresh_token) ∧
      (storeSessionTokens tr nowMs).lookup TOKEN_TYPE_KEY =
        some (if tr.token_type.isEmpty then "Bearer" else tr.token_type) ∧
      (storeSessionTokens tr nowMs).lookup EXPIRES_AT_KEY =
        some (toString (nowMs +
          (if tr.expires_in = 0 then TOKEN_EXPIRY_FALLBACK_SECONDS else tr.expires_in) *
            MILLISECONDS_PER_SECOND)) ∧
      ((storeSessionTokens tr nowMs).lookup USER_ID_KEY =
        if userIdTruthy tr.user_id then some (tr.user_id.getD "") else none)) := by
  constructor
  · intro h
    simp [storeSessionTokens, h]
  · intro h
    by_cases hu : userIdTruthy tr.user_id <;>
      simp [storeSessionTokens, h, hu, List.lookup, ACCESS_TOKEN_KEY, REFRESH_TOKEN_KEY,
        TOKEN_TYPE_KEY, EXPIRES_AT_KEY, USER_ID_KEY]

/-- Claim C10: buildUrl joins the sanitised base URL, a single slash,
and the path stripped of leading slashes; the sanitised base never ends
in a slash and the stripped path never starts with one, so the joined
URL has exactly one slash between base and path. -/
theorem buildUrl_single_slash_join (rawBase path : List Char) :
    buildUrl rawBase path =
      sanitizeBaseUrl rawBase ++ '/' :: stripLeadingSlashes path ∧
    (sanitizeBaseUrl rawBase).getLast? ≠ some '/' ∧
    (stripLeadingSlashes path).head? ≠ some '/' := by
  refine ⟨rfl, ?_, ?_⟩
  · intro hlast
    rw [sanitizeBaseUrl, List.getLast?_reverse] at hlast
    have hfalse := head_dropWhile_not _ _ _ hlast
    simp at hfalse
  · intro hhead
    have hfalse := head_dropWhile_not _ _ _ hhead
    simp at hfalse

/-! Backend scheduling engine. The backend implementation (FastAPI,
section 2 of the specification) is not part of the repository snapshot;
the definitions below are modelled from the specification text. -/

/-- Modelled from the spec: the appointment status enumeration of the
data model (missing backend source; spec section 3). -/
inductive Status
  | scheduled
  | confirmed
  | rescheduled
  | canceled
  | no_show
  | completed
deriving DecidableEq, Repr

/-- Modelled from the spec: an Appointment materialised as a calendar
event (missing backend source; spec section 3). Instants are minutes
since the epoch. -/
structure Appointment where
  id : Nat
  patientName : String
  phone : String
  startTime : Nat
  endTime : Nat
  apptType : String
  status : Status
  reminderSent : Bool
deriving DecidableEq, Repr

/-- The half-open intervals [startTime, endTime) of two appointments
intersect. -/
def overlaps (a b : Appointment) : Prop :=
  a.startTime < b.endTime ∧ b.startTime < a.endTime

instance instDecidableOverlaps (a b : Appointment) : Decidable (overlaps a b) :=
  inferInstanceAs (Decidable (_ ∧ _))

/-- Two appointments may coexist on one calendar: one of them is
canceled, or their intervals do not overlap (spec section 3
invariant). -/
def compatible (a b : Appointment) : Prop :=
  a.status = Status.canceled ∨ b.status = Status.canceled ∨ ¬ overlaps a b

instance instDecidableCompatible (a b : Appointment) : Decidable (compatible a b) :=
  inferInstanceAs (Decidable (_ ∨ _ ∨ _))

/-- The calendar invariant: every pair of appointments on the calendar
is compatible. -/
def NoOverlap (cal : List Appointment) : Prop :=
  cal.Pairwise compatible

/-- Provider-assigned event identifiers are stable and pairwise
distinct on one calendar (spec section 3: id is stable and
immutable). -/
def UniqueIds (cal : List Appointment) : Prop :=
  cal.Pairwise (fun a b => a.id ≠ b.id)

/-- Modelled from the spec: the booking failure outcomes of the Booking
Engine contract (missing backend source; spec section 4.4). -/
inductive BookingError
  | conflict
  | invalidSlot
deriving DecidableEq, Repr

/-- Modelled from the spec: the lifecycle failure outcomes of the
Appointment Lifecycle Manager (missing backend source; spec sections 4.5
and 7). -/
inductive LifecycleError
  | notFound
  | invalidTransition
  | conflict
  | invalidSlot
deriving DecidableEq, Repr

/-- Modelled from the spec: the re-validation the Booking Engine runs at
call time, true when the requested interval intersects some non-canceled
appointment on the calendar (missing backend source; spec section
4.4). -/
def conflictsWith (cal : List Appointment) (s e : Nat) : Bool :=
  cal.any fun a =>
    decide (a.status ≠ Status.canceled ∧ a.startTime < e ∧ s < a.endTime)

/-- Modelled from the spec: book validates the requested slot against
current availability with conflict detection, then creates the event
with status scheduled and reminderSent false (missing backend source;
spec section 4.4). On success it returns the created appointment and the
calendar with the new event written. -/
def book (cal : List Appointment) (patientName phone : String) (s e : Nat)
    (apptType : String) (newId : Nat) :
    Except BookingError (Appointment × List Appointment) :=
  if e ≤ s then .error .invalidSlot
  else if conflictsWith cal s e then .error .conflict
  else
    let appt : Appointment :=
      { id := newId, patientName := patientName, phone := phone, startTime := s,
        endTime := e, apptType := apptType, status := Status.scheduled,
        reminderSent := false }
    .ok (appt, appt :: cal)

/-- Modelled from the spec: the conflict check a reschedule runs,
excluding the appointment's own current interval by its id (missing
backend source; spec section 4.5). -/
def conflictsExcluding (cal : List Appointment) (exclId : Nat) (s e : Nat) : Bool :=
  cal.any fun a =>
    decide (a.id ≠ exclId ∧ a.status ≠ Status.canceled ∧
      a.startTime < e ∧ s < a.endTime)

/-- Modelled from the spec: reschedule reads the current event,
validates the transition (only scheduled or confirmed may move),
validates the new slot excluding the appointment's own interval, then
writes the new times and sets status rescheduled (missing backend
source; spec section 4.5). -/
def reschedule (cal : List Appointment) (apptId : Nat) (newStart newEnd : Nat) :
    Except LifecycleError (List Appointment) :=
  match cal.find? (fun a => a.id == apptId) with
  | none => .error .notFound
  | some appt =>
    if appt.status = Status.scheduled ∨ appt.status = Status.confirmed then
      if newEnd ≤ newStart then .error .invalidSlot
      else if conflictsExcluding cal apptId newStart newEnd then .error .conflict
      else .ok (cal.map fun a =>
        if a.id = apptId then
          { a with
            startTime := newStart
            endTime := newEnd
            status := Status.rescheduled }
        else a)
    else .error .invalidTransition

/-- Helper: what a false conflictsWith check says about each calendar
entry. -/
theorem conflictsWith_false_forall {cal : List Appointment} {s e : Nat}
    (h : conflictsWith cal s e = false) :
    ∀ a ∈ cal, ¬(a.status ≠ Status.canceled ∧ a.startTime < e ∧ s < a.endTime) := by
  intro a ha hbad
  have : cal.any (fun a =>
      decide (a.status ≠ Status.canceled ∧ a.startTime < e ∧ s < a.endTime)) = true :=
    List.any_eq_true.mpr ⟨a, ha, decide_eq_true hbad⟩
  rw [conflictsWith] at h
  rw [h] at this
  exact Bool.false_ne_true this

/-- Helper: what a false conflictsExcluding check says about each
calendar entry other than the excluded one. -/
theorem conflictsExcluding_false_forall {cal : List Appointment} {exclId s e : Nat}
    (h : conflictsExcluding cal exclId s e = false) :
    ∀ a ∈ cal, ¬(a.id ≠ exclId ∧ a.status ≠ Status.canceled ∧
      a.startTime < e ∧ s < a.endTime) := by
  intro a ha hbad
  have : cal.any (fun a =>
      decide (a.id ≠ exclId ∧ a.status ≠ Status.canceled ∧
        a.startTime < e ∧ s < a.endTime)) = true :=
    List.any_eq_true.mpr ⟨a, ha, decide_eq_true hbad⟩
  rw [conflictsExcluding] at h
  rw [h] at this
  exact Bool.false_ne_true this

/-- Claim C1: on a calendar with distinct event ids satisfying the
non-overlap invariant (no two non-canceled appointments overlap), every
successful book and every successful reschedule yields a calendar that
still satisfies the invariant. -/
theorem book_reschedule_preserve_NoOverlap (cal : List Appointment)
    (hids : UniqueIds cal) (hinv : NoOverlap cal) :
    (∀ pn ph s e t nid appt cal2,
      book cal pn ph s e t nid = Except.ok (appt, cal2) → NoOverlap cal2) ∧
    (∀ apptId s e cal2,
      reschedule cal apptId s e = Except.ok cal2 → NoOverlap cal2) := by
  constructor
  · intro pn ph s e t nid appt cal2 h
    by_cases h1 : e ≤ s
    · simp [book, h1] at h
    · by_cases h2 : conflictsWith cal s e
      · simp [book, h1, h2] at h
      · simp only [book, if_neg h1, Bool.not_eq_true] at h
        rw [if_neg (by simp [h2])] at h
        simp only [Except.ok.injEq, Prod.mk.injEq] at h
        obtain ⟨-, hcal⟩ := h
        subst hcal
        have hforall := conflictsWith_false_forall (Bool.eq_false_iff.mpr h2)
        unfold NoOverlap
        rw [List.pairwise_cons]
        refine ⟨?_, hinv⟩
        intro b hb
        by_cases hbc : b.status = Status.canceled
        · exact Or.inr (Or.inl hbc)
        · refine Or.inr (Or.inr ?_)
          intro hov
          obtain ⟨hov1, hov2⟩ := hov
          exact hforall b hb ⟨hbc, hov2, hov1⟩
  · intro apptId s e cal2 h
    unfold reschedule at h
    cases hfind : cal.find? (fun a => a.id == apptId) with
    | none => rw [hfind] at h; simp at h
    | some appt =>
      rw [hfind] at h
      dsimp only at h
      by_cases hst : appt.status = Status.scheduled ∨ appt.status = Status.confirmed
      · rw [if_pos hst] at h
        by_cases hslot : e ≤ s
        · simp [hslot] at h
        · rw [if_neg hslot] at h
          by_cases hconf : conflictsExcluding cal apptId s e
          · simp [hconf] at h
          · rw [if_neg (by simp [hconf])] at h
            simp only [Except.ok.injEq] at h
            subst h
            have hforall := conflictsExcluding_false_forall (Bool.eq_false_iff.mpr hconf)
            unfold NoOverlap
            rw [List.pairwise_map]
            refine List.Pairwise.imp_of_mem ?_ (hids.and hinv)
            intro a b ha hb hab
            obtain ⟨hid, hcompat⟩ := hab
            by_cases haid : a.id = apptId
            · have hbid : ¬ b.id = apptId := fun hbid => hid (haid.trans hbid.symm)
              simp only [if_pos haid, if_neg hbid]
              by_cases hbc : b.status = Status.canceled
              · exact Or.inr (Or.inl hbc)
              · refine Or.inr (Or.inr ?_)
                intro hov
                obtain ⟨hov1, hov2⟩ := hov
                exact hforall b hb ⟨hbid, hbc, hov2, hov1⟩
            · by_cases hbid : b.id = apptId
              · simp only [if_neg haid, if_pos hbid]
                by_cases hac : a.status = Status.canceled
                · exact Or.inl hac
                · refine Or.inr (Or.inr ?_)
                  intro hov
                  obtain ⟨hov1, hov2⟩ := hov
                  exact hforall a ha ⟨haid, hac, hov1, hov2⟩
              · simpa only [if_neg haid, if_neg hbid] using hcompat
      · rw [if_neg hst] at h
        simp at h

/-- Claim C1 witness: booking a free slot into a one-appointment
calendar yields a calendar still satisfying the invariant. -/
theorem book_reschedule_preserve_NoOverlap_witness :
    NoOverlap
      [{ id := 2, patientName := "Bob", phone := "555-0101", startTime := 600,
         endTime := 630, apptType := "checkup", status := Status.scheduled,
         reminderSent := false },
       { id := 1, patientName := "Ann", phone := "555-0100", startTime := 540,
         endTime := 570, apptType := "checkup", status := Status.scheduled,
         reminderSent := false }] :=
  (book_reschedule_preserve_NoOverlap
      [{ id := 1, patientName := "Ann", phone := "555-0100", startTime := 540,
         endTime := 570, apptType := "checkup", status := Status.scheduled,
         reminderSent := false }]
      (by simp [UniqueIds])
      (by simp [NoOverlap])).1
    "Bob" "555-0101" 600 630 "checkup" 2 _ _ rfl

/-- Modelled from the spec: a status is terminal when no further
lifecycle transition applies to it (canceled is terminal, and no_show
and completed admit no outgoing transition; spec section 4.5). -/
def isTerminal (s : Status) : Bool :=
  decide (s = Status.canceled ∨ s = Status.no_show ∨ s = Status.completed)

/-- Modelled from the spec: the Lifecycle Manager sets the reminderSent
flag on any appointment in a non-terminal status; an invalid transition
fails and performs no write (missing backend source; spec section
4.5). -/
def setReminderSent (a : Appointment) : Except LifecycleError Appointment :=
  if isTerminal a.status then .error .invalidTransition
  else .ok { a with reminderSent := true }

/-- Modelled from the spec: an appointment is due for a reminder when
its start lies inside the lead window, the reminderSent flag is still
false, and the status is scheduled or confirmed (missing backend source;
spec section 4.6). -/
def dueForReminder (now lead : Nat) (a : Appointment) : Bool :=
  decide (a.reminderSent = false ∧
    (a.status = Status.scheduled ∨ a.status = Status.confirmed) ∧
    now ≤ a.startTime ∧ a.startTime ≤ now + lead)

/-- Modelled from the spec: one sequential run of the Reminder
Scheduler over the calendar: every due appointment is dispatched and its
flag set immediately after. Returns the updated calendar and the list of
appointment ids dispatched during the run (missing backend source; spec
section 4.6). -/
def runReminderScheduler (now lead : Nat) (cal : List Appointment) :
    List Appointment × List Nat :=
  (cal.map fun a =>
     if dueForReminder now lead a then { a with reminderSent := true } else a,
   (cal.filter (dueForReminder now lead)).map (fun a => a.id))

/-- Claim C3: setting the reminderSent flag twice on a non-terminal
appointment equals setting it once; an appointment whose flag is already
true is never due for dispatch; and re-running the scheduler over the
calendar a previous run produced dispatches nothing. -/
theorem reminderSent_idempotent (a : Appointment) (h : isTerminal a.status = false) :
    (setReminderSent a).bind setReminderSent = setReminderSent a ∧
    (∀ now lead b, b.reminderSent = true → dueForReminder now lead b = false) ∧
    (∀ now lead cal,
      (runReminderScheduler now lead (runReminderScheduler now lead cal).1).2 = []) := by
  refine ⟨?_, ?_, ?_⟩
  · simp [setReminderSent, h, Except.bind]
  · intro now lead b hb
    simp [dueForReminder, hb]
  · intro now lead cal
    have hnil :
        ((runReminderScheduler now lead cal).1.filter (dueForReminder now lead)) = [] := by
      rw [List.filter_eq_nil_iff]
      intro b hb
      simp only [runReminderScheduler, List.mem_map] at hb
      obtain ⟨x, hx, hfx⟩ := hb
      by_cases hdue : dueForReminder now lead x
      · rw [if_pos hdue] at hfx
        subst hfx
        simp [dueForReminder]
      · rw [if_neg hdue] at hfx
        subst hfx
        exact hdue
    simp only [runReminderScheduler]
    rw [show (runReminderScheduler now lead cal).1 =
      cal.map (fun a =>
        if dueForReminder now lead a then { a with reminderSent := true } else a) from rfl]
      at hnil
    rw [hnil]
    rfl

/-- Claim C3 witness: the idempotence statement at a concrete scheduled
appointment. -/
theorem reminderSent_idempotent_witness :
    (setReminderSent
        { id := 1, patientName := "Ann", phone := "555-0100", startTime := 540,
          endTime := 570, apptType := "checkup", status := Status.scheduled,
          reminderSent := false }).bind setReminderSent =
      setReminderSent
        { id := 1, patientName := "Ann", phone := "555-0100", startTime := 540,
          endTime := 570, apptType := "checkup", status := Status.scheduled,
          reminderSent := false } :=
  (reminderSent_idempotent
      { id := 1, patientName := "Ann", phone := "555-0100", startTime := 540,
        endTime := 570, apptType := "checkup", status := Status.scheduled,
        reminderSent := false } rfl).1

/-! Date/time resolver, modelled from spec section 4.2. -/

/-- Modelled from the spec: the result of the date/time resolver: a
timezone-aware instant, a range, or a typed parse failure (missing
backend source; spec section 4.2). Instants are minutes since the epoch
in UTC. -/
inductive Resolved
  | instant (utcMinutes : Nat)
  | range (startUtc endUtc : Nat)
  | parseFailure
deriving DecidableEq, Repr

/-- Minutes in a civil day. -/
def minutesPerDay : Nat := 1440

/-- The local civil day index of a UTC instant under a timezone offset
given in minutes east of UTC. -/
def localDayIndex (utcMinutes tzOffset : Nat) : Nat :=
  (utcMinutes + tzOffset) / minutesPerDay

/-- The UTC range covering one local civil day. -/
def localDayRange (dayIdx tzOffset : Nat) : Resolved :=
  .range (dayIdx * minutesPerDay - tzOffset) ((dayIdx + 1) * minutesPerDay - tzOffset)

/-- Lowercase weekday names, Sunday first. -/
def weekdayNames : List String :=
  ["sunday", "monday", "tuesday", "wednesday", "thursday", "friday", "saturday"]

/-- Lowercase month name stems, January first. -/
def monthNames : List String :=
  ["jan", "feb", "mar", "apr", "may", "jun", "jul", "aug", "sep", "oct", "nov", "dec"]

/-- The weekday number (Sunday 0) named by a word, when it names one. -/
def weekdayIndex (w : String) : Option Nat :=
  weekdayNames.indexOf? w

/-- The month number (January 1) whose name the word starts with, when
one matches. -/
def monthIndex (w : String) : Option Nat :=
  match monthNames.findIdx? (fun m => w.startsWith m) with
  | some i => some (i + 1)
  | none => none

/-- Gregorian leap year test. -/
def isLeapYear (y : Nat) : Bool :=
  (y % 4 == 0 && y % 100 != 0) || y % 400 == 0

/-- Leap years in the range from year 1 to year n. -/
def leapsUpTo (n : Nat) : Nat :=
  n / 4 - n / 100 + n / 400

/-- Days before the first of each month in a common year. -/
def cumulativeDays (m : Nat) : Nat :=
  [0, 31, 59, 90, 120, 151, 181, 212, 243, 273, 304, 334].getD (m - 1) 0

/-- Days in a month of a given year. -/
def daysInMonth (m y : Nat) : Nat :=
  if m = 2 then (if isLeapYear y then 29 else 28)
  else [31, 28, 31, 30, 31, 30, 31, 31, 30, 31, 30, 31].getD (m - 1) 0

/-- The civil day index (days since 1970-01-01) of a calendar date on or
after 1970. -/
def epochDayOfDate (y m d : Nat) : Nat :=
  (y - 1970) * 365 + (leapsUpTo (y - 1) - leapsUpTo 1969) +
    cumulativeDays m + (if 2 < m && isLeapYear y then 1 else 0) + (d - 1)

/-- Modelled from the spec: the date/time resolver (missing backend
source; spec section 4.2). It parses absolute dates such as Feb 11 2026,
relative dates such as next tuesday and tomorrow, and bare times such as
2 pm resolved against the day of the reference instant; anything else is
a typed parse failure, never a silent default. The result depends only
on the text, the reference instant and the timezone offset. -/
def resolve (text : String) (referenceNow tzOffset : Nat) : Resolved :=
  let words := (text.toLower.splitOn " ").filter (fun w => !w.isEmpty)
  match words with
  | ["today"] => localDayRange (localDayIndex referenceNow tzOffset) tzOffset
  | ["tomorrow"] => localDayRange (localDayIndex referenceNow tzOffset + 1) tzOffset
  | ["next", w] =>
    match weekdayIndex w with
    | some target =>
      let todayIdx := localDayIndex referenceNow tzOffset
      let todayWeekday := (todayIdx + 4) % 7
      let delta0 := (target + 7 - todayWeekday) % 7
      let delta := if delta0 = 0 then 7 else delta0
      localDayRange (todayIdx + delta) tzOffset
    | none => Resolved.parseFailure
  | [m, d, y] =>
    match monthIndex m, d.toNat?, y.toNat? with
    | some mi, some dn, some yn =>
      if 1970 ≤ yn ∧ 1 ≤ dn ∧ dn ≤ daysInMonth mi yn then
        localDayRange (epochDayOfDate yn mi dn) tzOffset
      else Resolved.parseFailure
    | _, _, _ => Resolved.parseFailure
  | [hw, meridiem] =>
    match hw.toNat? with
    | some hn =>
      if (meridiem = "am" ∨ meridiem = "pm") ∧ 1 ≤ hn ∧ hn ≤ 12 then
        let hour24 :=
          if meridiem = "am" then (if hn = 12 then 0 else hn)
          else (if hn = 12 then 12 else hn + 12)
        Resolved.instant
          (localDayIndex referenceNow tzOffset * minutesPerDay + hour24 * 60 - tzOffset)
      else Resolved.parseFailure
    | none => Resolved.parseFailure
  | _ => Resolved.parseFailure

/-- Claim C2: the resolver is deterministic: identical text, reference
instant and timezone produce the identical output, and any number of
repeated calls with the same arguments yields a constant list of
results. -/
theorem resolve_deterministic (text : String) (referenceNow tzOffset n : Nat) :
    resolve text referenceNow tzOffset = resolve text referenceNow tzOffset ∧
    (List.replicate n (text, referenceNow, tzOffset)).map
        (fun q => resolve q.1 q.2.1 q.2.2) =
      List.replicate n (resolve text referenceNow tzOffset) := by
  refine ⟨rfl, ?_⟩
  rw [List.map_replicate]

end MomMode
